import Mathlib

/-!
Shallow embedding of the pic-splice plugin (`src/index.ts`): per-user image
collection sessions, the debounce/finalize protocol around
`stitchAndSendImages`, the retrying puppeteer render `stitchImages`, and the
HTML layout generation `generateHtmlForImages`.  The messaging channel and the
rendering engine are external collaborators; the engine's per-attempt behaviour is
supplied through an explicit oracle, and outbound sends are collected as data.
-/

namespace PicSplice

/-- An outbound chat message: plain status/error text, or an image payload
(`session.send(...)` in the source). -/
inductive OutMsg where
  | text (s : String)
  | image (bytes : List Nat)
deriving DecidableEq, Repr

/-- One user's collection session (an entry of `userImages` in the source):
the stitch direction chosen at trigger time, the accumulated image URLs in
arrival order, and the `processing` re-entrancy guard.  In the source the
field is optional and absent at creation, which reads as `false`. -/
structure Session where
  direction : String
  images : List String
  processing : Bool
deriving DecidableEq, Repr

/-- Keyed lookup in an association list, mirroring `record[key]` access on the
plain objects `userImages` and `timeout`. -/
def alGet {α : Type} : List (String × α) → String → Option α
  | [], _ => none
  | p :: rest, k => if p.1 = k then some p.2 else alGet rest k

/-- Keyed replace-or-insert, mirroring `record[key] = value`. -/
def alSet {α : Type} : List (String × α) → String → α → List (String × α)
  | [], k, v => [(k, v)]
  | p :: rest, k, v => if p.1 = k then (k, v) :: rest else p :: alSet rest k v

/-- Keyed removal, mirroring `delete record[key]`. -/
def alErase {α : Type} (l : List (String × α)) (k : String) : List (String × α) :=
  l.filter (fun p => decide (p.1 ≠ k))

/-- Characters of `a` begin with the characters of `b`. -/
def listStartsWith : List Char → List Char → Bool
  | _, [] => true
  | [], _ :: _ => false
  | a :: as, b :: bs => a == b && listStartsWith as bs

/-- `needle` occurs as a contiguous run inside the second list. -/
def listContainsSeq (needle : List Char) : List Char → Bool
  | [] => needle.isEmpty
  | c :: rest => listStartsWith (c :: rest) needle || listContainsSeq needle rest

/-- JavaScript `haystack.includes(needle)` on strings. -/
def strIncludes (hay needle : String) : Bool :=
  listContainsSeq needle.toList hay.toList

/-- The literal `'Connection closed'` tested against error messages in
`stitchImages`. -/
def connectionClosedMsg : String := "Connection closed"

/-- `maxRetries = 3` in `stitchImages`. -/
def maxRetries : Nat := 3

/-- The terminal error thrown after the retry loop exhausts its attempts. -/
def maxRetriesErrMsg : String := "[拼图] 达到最大重试次数，仍无法渲染图片"

/-- Sent when finalize finds fewer than two accumulated images. -/
def needTwoMsg : String := "请提供至少两张图片进行拼接。"

/-- Generic outward failure message sent when the render pipeline throws. -/
def renderFailMsg : String := "拼接图片时发生错误，请稍后再试。"

/-- Returned by the trigger command for an invalid direction token. -/
def invalidDirectionMsg : String := "拼接方向只能是 \"横向\" 或 \"纵向\"。"

/-- Confirmation returned by the trigger command on success. -/
def startConfirmMsg : String := "请发送图片。当图片发送完成后，请输入 \"完成\" 或等待超时自动拼接。"

/-- The exact completion keyword recognised (after trimming) by the middleware. -/
def doneKeyword : String := "完成"

/-- The `<style>` template literal of `generateHtmlForImages`, with the
direction ternary spliced in: `row` for the horizontal token, `column`
otherwise. -/
def styleFor (direction : String) : String :=
  "\n      <style>\n        body \x7b\n          margin: 0;\n          display: flex;\n          flex-direction: "
    ++ (if direction = "横向" then "row" else "column")
    ++ ";\n        \x7d\n        img \x7b\n          display: block;\n        \x7d\n      </style>\n    "

/-- `generateHtmlForImages`: the fixed skeleton around one `<img>` tag per URL,
each URL embedded verbatim with no escaping, joined with the empty separator. -/
def generateHtmlForImages (imageUrls : List String) (direction : String) : String :=
  let style := styleFor direction
  let imagesHtml := String.join (imageUrls.map (fun url => "<img src=\"" ++ url ++ "\">"))
  "<html><head>" ++ style ++ "</head><body>" ++ imagesHtml ++ "</body></html>"

/-- What the rendering engine does on one attempt of the `stitchImages` loop:
the attempt succeeds with screenshot bytes, or `ctx.puppeteer.page()` itself
throws, or a later step (`setContent` / `evaluate` / `screenshot`) throws after
a page has been acquired. -/
inductive AttemptOutcome where
  | success (bytes : List Nat)
  | failAcquire (errMsg : String)
  | failAfterAcquire (errMsg : String)
deriving DecidableEq, Repr

/-- Result of `stitchImages`: the screenshot, or the thrown error's message. -/
inductive RenderResult where
  | ok (bytes : List Nat)
  | error (msg : String)
deriving DecidableEq, Repr

/-- Observable resource/timing events of a `stitchImages` run: loop iterations
entered, pages acquired via `ctx.puppeteer.page()`, pages released via
`page.close()`, and 1000 ms backoff sleeps performed. -/
structure RenderTrace where
  attempts : Nat
  pagesAcquired : Nat
  pagesClosed : Nat
  sleeps : Nat
deriving DecidableEq, Repr

/-- An attempt failure whose message contains `'Connection closed'`
(JavaScript `error.message.includes(connectionClosedMsg)`). -/
def isTransientMsg (msg : String) : Bool :=
  strIncludes msg connectionClosedMsg

/-- The attempt failed with a transient (connection-closed) error. -/
def isTransientOutcome : AttemptOutcome → Bool
  | AttemptOutcome.success _ => false
  | AttemptOutcome.failAcquire m => isTransientMsg m
  | AttemptOutcome.failAfterAcquire m => isTransientMsg m

/-- The attempt failed with a non-transient error, which the loop re-throws. -/
def isFatalOutcome : AttemptOutcome → Bool
  | AttemptOutcome.success _ => false
  | AttemptOutcome.failAcquire m => !isTransientMsg m
  | AttemptOutcome.failAfterAcquire m => !isTransientMsg m

/-- The error message carried by a failing attempt (irrelevant on success). -/
def outcomeMsg : AttemptOutcome → String
  | AttemptOutcome.success _ => ""
  | AttemptOutcome.failAcquire m => m
  | AttemptOutcome.failAfterAcquire m => m

/-- Number of pages `page.close()` releases for a given final result: the
source closes a page only on the successful return path. -/
def okCount : RenderResult → Nat
  | RenderResult.ok _ => 1
  | RenderResult.error _ => 0

/-- The `for (attempt = 0; attempt < maxRetries; attempt++)` body of
`stitchImages`, consuming one engine outcome per remaining attempt.  A
success closes its page and returns; a transient failure logs, sleeps the
fixed 1000 ms backoff and continues with a fresh page; any other failure is
re-thrown immediately; an exhausted list throws the max-retries error.  No
path closes the page of a failing attempt (the source has no `finally`). -/
def stitchImagesGo : List AttemptOutcome → RenderResult × RenderTrace
  | [] => (RenderResult.error maxRetriesErrMsg, ⟨0, 0, 0, 0⟩)
  | AttemptOutcome.success bytes :: _ => (RenderResult.ok bytes, ⟨1, 1, 1, 0⟩)
  | AttemptOutcome.failAcquire msg :: rest =>
      if isTransientMsg msg then
        let p := stitchImagesGo rest
        (p.1, ⟨p.2.attempts + 1, p.2.pagesAcquired, p.2.pagesClosed, p.2.sleeps + 1⟩)
      else
        (RenderResult.error msg, ⟨1, 0, 0, 0⟩)
  | AttemptOutcome.failAfterAcquire msg :: rest =>
      if isTransientMsg msg then
        let p := stitchImagesGo rest
        (p.1, ⟨p.2.attempts + 1, p.2.pagesAcquired + 1, p.2.pagesClosed, p.2.sleeps + 1⟩)
      else
        (RenderResult.error msg, ⟨1, 1, 0, 0⟩)

/-- `stitchImages(ctx, imageUrls, direction)`: builds the HTML once, then runs
the bounded retry loop over at most `maxRetries` engine outcomes. -/
def stitchImages (engine : Nat → AttemptOutcome) (imageUrls : List String)
    (direction : String) : RenderResult × RenderTrace :=
  let _html := generateHtmlForImages imageUrls direction
  stitchImagesGo ((List.range maxRetries).map engine)

/-- Process-wide mutable state of the plugin: the `userImages` session map, the
`timeout` handle table, the set of scheduled-but-not-yet-fired or cancelled
timer callbacks (what the Node runtime still holds), and a fresh-handle
counter. -/
structure SysState where
  userImages : List (String × Session)
  timeoutTable : List (String × Nat)
  pending : List (Nat × String)
  nextTimer : Nat
deriving DecidableEq, Repr

/-- Result of one finalize run: the post state, the outbound sends in order,
and the image lists passed to `stitchImages` (one entry per render invocation). -/
structure FinalizeResult where
  state : SysState
  sent : List OutMsg
  rendered : List (List String)
deriving DecidableEq, Repr

/-- Result of one middleware run, same observables as a finalize run. -/
structure MsgResult where
  state : SysState
  sent : List OutMsg
  rendered : List (List String)
deriving DecidableEq, Repr

/-- The outbound message produced from a render result: the PNG payload on
success, the generic failure text when the render threw. -/
def sentFor : RenderResult → List OutMsg
  | RenderResult.ok b => [OutMsg.image b]
  | RenderResult.error _ => [OutMsg.text renderFailMsg]

/-- `stitchAndSendImages(ctx, session)` — the finalize routine.  Silent no-op
when the user has no session or `processing` is already true; with fewer than
two images it sends the "need at least two" text, clears `processing` and
keeps the session; otherwise it renders once and, in the `finally` block,
deletes the session and the timer-table entry regardless of the outcome. -/
def stitchAndSendImages (engine : Nat → AttemptOutcome) (uid : String)
    (s : SysState) : FinalizeResult :=
  match alGet s.userImages uid with
  | none => ⟨s, [], []⟩
  | some sess =>
      if sess.processing then ⟨s, [], []⟩
      else if sess.images.length < 2 then
        ⟨{ s with userImages := alSet s.userImages uid { sess with processing := false } },
          [OutMsg.text needTwoMsg], []⟩
      else
        ⟨{ s with userImages := alErase s.userImages uid,
                  timeoutTable := alErase s.timeoutTable uid },
          sentFor (stitchImages engine sess.images sess.direction).1,
          [sess.images]⟩

/-- `clearTimeout(timeout[uid])`: cancels the scheduled callback whose handle
is currently recorded for `uid`, if any.  The table entry itself is not
removed (the source never deletes it here), and a missing entry makes the call
a no-op. -/
def clearTimeoutFor (s : SysState) (uid : String) : SysState :=
  match alGet s.timeoutTable uid with
  | none => s
  | some tid => { s with pending := s.pending.filter (fun p => decide (p.1 ≠ tid)) }

/-- The middleware body for one inbound message from `uid`.  `imgs` is what
`h.select(content, 'img')` extracts from the message, in document order;
`isDone` is whether the trimmed content equals the completion keyword.
Without a session the message passes through untouched.  Otherwise the images
are appended, a running-total status is sent when at least one image arrived,
and either finalize runs followed by `clearTimeout`, or the debounce timer is
cancelled and rescheduled for the fixed window. -/
def onMessage (engine : Nat → AttemptOutcome) (uid : String) (imgs : List String)
    (isDone : Bool) (s : SysState) : MsgResult :=
  match alGet s.userImages uid with
  | none => ⟨s, [], []⟩
  | some sess =>
      let sess1 : Session := { sess with images := sess.images ++ imgs }
      let s1 : SysState := { s with userImages := alSet s.userImages uid sess1 }
      let statusSent : List OutMsg :=
        if 0 < imgs.length then
          [OutMsg.text ("已获取 " ++ toString sess1.images.length ++ " 张图片。")]
        else []
      if isDone then
        let fr := stitchAndSendImages engine uid s1
        ⟨clearTimeoutFor fr.state uid, statusSent ++ fr.sent, fr.rendered⟩
      else
        let s2 := clearTimeoutFor s1 uid
        ⟨{ s2 with
            pending := (s2.nextTimer, uid) :: s2.pending,
            timeoutTable := alSet s2.timeoutTable uid s2.nextTimer,
            nextTimer := s2.nextTimer + 1 },
          statusSent, []⟩

/-- The `拼图 [方向]` command action: an invalid direction token returns the
validation error and changes nothing; a valid token installs a fresh session
(chosen direction, empty image list) over any existing one and returns the
confirmation.  The source touches neither the timer table nor any scheduled
callback here. -/
def startSession (uid direction : String) (s : SysState) : SysState × String :=
  if ¬ (direction = "横向") ∧ ¬ (direction = "纵向") then
    (s, invalidDirectionMsg)
  else
    ({ s with userImages := alSet s.userImages uid ⟨direction, [], false⟩ }, startConfirmMsg)

/-- Expiry of the debounce callback scheduled under handle `tid` for `uid`.
A cancelled callback never runs; a still-pending one is dequeued by the
runtime and then executes `stitchAndSendImages`. -/
def fireTimer (engine : Nat → AttemptOutcome) (tid : Nat) (uid : String)
    (s : SysState) : FinalizeResult :=
  if (tid, uid) ∈ s.pending then
    stitchAndSendImages engine uid
      { s with pending := s.pending.filter (fun p => decide (p ≠ (tid, uid))) }
  else ⟨s, [], []⟩

/-- Feeding a sequence of non-completion messages, the k-th carrying the image
batch `batches[k]`, through the middleware. -/
def feedImages (engine : Nat → AttemptOutcome) (uid : String) (s : SysState)
    (batches : List (List String)) : SysState :=
  batches.foldl (fun st b => (onMessage engine uid b false st).state) s

/-- Total number of render invocations across two back-to-back finalize calls
for the same user. -/
def finalizeTwice (e1 e2 : Nat → AttemptOutcome) (uid : String) (s : SysState) : Nat :=
  (stitchAndSendImages e1 uid s).rendered.length
    + (stitchAndSendImages e2 uid (stitchAndSendImages e1 uid s).state).rendered.length

/-- An engine that succeeds immediately on every attempt. -/
def okEngine : Nat → AttemptOutcome := fun _ => AttemptOutcome.success [1]

/-- A user `u` holding two images, with a debounce timer scheduled under
handle 0. -/
def sampleState2 : SysState :=
  ⟨[("u", ⟨"纵向", ["a", "b"], false⟩)], [("u", 0)], [(0, "u")], 1⟩

/-- A user `u` holding a single image, with a debounce timer scheduled under
handle 0. -/
def sampleState1 : SysState :=
  ⟨[("u", ⟨"纵向", ["a"], false⟩)], [("u", 0)], [(0, "u")], 1⟩

theorem alGet_alSet_self {α : Type} (l : List (String × α)) (k : String) (v : α) :
    alGet (alSet l k v) k = some v := by
  induction l with
  | nil => simp [alGet, alSet]
  | cons p rest ih =>
      by_cases h : p.1 = k
      · simp [alSet, h, alGet]
      · simp [alSet, h, alGet, ih]

theorem alGet_alErase_self {α : Type} (l : List (String × α)) (k : String) :
    alGet (alErase l k) k = none := by
  induction l with
  | nil => simp [alErase, alGet]
  | cons p rest ih =>
      by_cases h : p.1 = k
      · simpa [alErase, List.filter_cons, h] using ih
      · simpa [alErase, List.filter_cons, h, alGet] using ih

theorem finalize_none (engine : Nat → AttemptOutcome) (uid : String) (s : SysState)
    (hget : alGet s.userImages uid = none) :
    stitchAndSendImages engine uid s = ⟨s, [], []⟩ := by
  unfold stitchAndSendImages
  rw [hget]

theorem finalize_busy (engine : Nat → AttemptOutcome) (uid : String) (s : SysState)
    (sess : Session) (hget : alGet s.userImages uid = some sess)
    (hp : sess.processing = true) :
    stitchAndSendImages engine uid s = ⟨s, [], []⟩ := by
  unfold stitchAndSendImages
  rw [hget]
  simp [hp]

theorem finalize_few (engine : Nat → AttemptOutcome) (uid : String) (s : SysState)
    (sess : Session) (hget : alGet s.userImages uid = some sess)
    (hp : sess.processing = false) (hfew : sess.images.length < 2) :
    stitchAndSendImages engine uid s =
      ⟨{ s with userImages := alSet s.userImages uid { sess with processing := false } },
        [OutMsg.text needTwoMsg], []⟩ := by
  unfold stitchAndSendImages
  rw [hget]
  simp [hp, hfew]

theorem finalize_render (engine : Nat → AttemptOutcome) (uid : String) (s : SysState)
    (sess : Session) (hget : alGet s.userImages uid = some sess)
    (hp : sess.processing = false) (hlen : 2 ≤ sess.images.length) :
    stitchAndSendImages engine uid s =
      ⟨{ s with userImages := alErase s.userImages uid,
                timeoutTable := alErase s.timeoutTable uid },
        sentFor (stitchImages engine sess.images sess.direction).1,
        [sess.images]⟩ := by
  unfold stitchAndSendImages
  rw [hget]
  simp [hp, Nat.not_lt.mpr hlen]

theorem clearTimeoutFor_userImages (s : SysState) (uid : String) :
    (clearTimeoutFor s uid).userImages = s.userImages := by
  unfold clearTimeoutFor
  cases alGet s.timeoutTable uid <;> rfl

theorem onMessage_append (engine : Nat → AttemptOutcome) (uid : String)
    (imgs : List String) (s : SysState) (sess : Session)
    (hget : alGet s.userImages uid = some sess) :
    alGet ((onMessage engine uid imgs false s).state).userImages uid =
      some { sess with images := sess.images ++ imgs } := by
  unfold onMessage
  rw [hget]
  simp [clearTimeoutFor_userImages, alGet_alSet_self]

theorem feedImages_get (engine : Nat → AttemptOutcome) (uid : String) :
    ∀ (batches : List (List String)) (s : SysState) (sess : Session),
    alGet s.userImages uid = some sess →
    alGet (feedImages engine uid s batches).userImages uid
      = some { sess with images := sess.images ++ batches.flatten } := by
  intro batches
  induction batches with
  | nil =>
      intro s sess h
      simpa [feedImages] using h
  | cons b rest ih =>
      intro s sess h
      have h1 := onMessage_append engine uid b s sess h
      have h2 := ih ((onMessage engine uid b false s).state) _ h1
      simpa [feedImages, List.append_assoc] using h2

theorem stitchGo_attempts_le : ∀ l : List AttemptOutcome,
    (stitchImagesGo l).2.attempts ≤ l.length := by
  intro l
  induction l with
  | nil => simp [stitchImagesGo]
  | cons a rest ih =>
      cases a with
      | success b => simp [stitchImagesGo]
      | failAcquire m =>
          by_cases hm : isTransientMsg m
          · simp only [stitchImagesGo, hm, if_true, List.length_cons]
            omega
          · simp [stitchImagesGo, hm]
      | failAfterAcquire m =>
          by_cases hm : isTransientMsg m
          · simp only [stitchImagesGo, hm, if_true, List.length_cons]
            omega
          · simp [stitchImagesGo, hm]

theorem stitchGo_all_transient : ∀ l : List AttemptOutcome,
    (∀ x ∈ l, isTransientOutcome x = true) →
    (stitchImagesGo l).1 = RenderResult.error maxRetriesErrMsg
      ∧ (stitchImagesGo l).2.sleeps = l.length
      ∧ (stitchImagesGo l).2.attempts = l.length := by
  intro l
  induction l with
  | nil => intro _; simp [stitchImagesGo]
  | cons a rest ih =>
      intro h
      have ha := h a (List.mem_cons_self a rest)
      obtain ⟨h1, h2, h3⟩ := ih (fun x hx => h x (List.mem_cons_of_mem a hx))
      cases a with
      | success b => simp [isTransientOutcome] at ha
      | failAcquire m =>
          simp only [isTransientOutcome] at ha
          simp [stitchImagesGo, ha, h1, h2, h3]
      | failAfterAcquire m =>
          simp only [isTransientOutcome] at ha
          simp [stitchImagesGo, ha, h1, h2, h3]

theorem stitchGo_success_at : ∀ (pre : List AttemptOutcome) (b : List Nat)
    (post : List AttemptOutcome), (∀ y ∈ pre, isTransientOutcome y = true) →
    (stitchImagesGo (pre ++ AttemptOutcome.success b :: post)).1 = RenderResult.ok b
      ∧ (stitchImagesGo (pre ++ AttemptOutcome.success b :: post)).2.attempts = pre.length + 1
      ∧ (stitchImagesGo (pre ++ AttemptOutcome.success b :: post)).2.sleeps = pre.length := by
  intro pre
  induction pre with
  | nil => intro b post _; simp [stitchImagesGo]
  | cons a rest ih =>
      intro b post h
      have ha := h a (List.mem_cons_self a rest)
      obtain ⟨h1, h2, h3⟩ := ih b post (fun y hy => h y (List.mem_cons_of_mem a hy))
      cases a with
      | success c => simp [isTransientOutcome] at ha
      | failAcquire m =>
          simp only [isTransientOutcome] at ha
          simp [stitchImagesGo, ha, h1, h2, h3, List.cons_append]
      | failAfterAcquire m =>
          simp only [isTransientOutcome] at ha
          simp [stitchImagesGo, ha, h1, h2, h3, List.cons_append]

theorem stitchGo_fatal_at : ∀ (pre : List AttemptOutcome) (x : AttemptOutcome)
    (post : List AttemptOutcome), (∀ y ∈ pre, isTransientOutcome y = true) →
    isFatalOutcome x = true →
    (stitchImagesGo (pre ++ x :: post)).1 = RenderResult.error (outcomeMsg x)
      ∧ (stitchImagesGo (pre ++ x :: post)).2.attempts = pre.length + 1
      ∧ (stitchImagesGo (pre ++ x :: post)).2.sleeps = pre.length := by
  intro pre
  induction pre with
  | nil =>
      intro x post _ hx
      cases x with
      | success b => simp [isFatalOutcome] at hx
      | failAcquire m =>
          simp only [isFatalOutcome, Bool.not_eq_true'] at hx
          simp [stitchImagesGo, hx, outcomeMsg]
      | failAfterAcquire m =>
          simp only [isFatalOutcome, Bool.not_eq_true'] at hx
          simp [stitchImagesGo, hx, outcomeMsg]
  | cons a rest ih =>
      intro x post h hx
      have ha := h a (List.mem_cons_self a rest)
      obtain ⟨h1, h2, h3⟩ := ih x post (fun y hy => h y (List.mem_cons_of_mem a hy)) hx
      cases a with
      | success c => simp [isTransientOutcome] at ha
      | failAcquire m =>
          simp only [isTransientOutcome] at ha
          simp [stitchImagesGo, ha, h1, h2, h3, List.cons_append]
      | failAfterAcquire m =>
          simp only [isTransientOutcome] at ha
          simp [stitchImagesGo, ha, h1, h2, h3, List.cons_append]

theorem stitchGo_closed : ∀ l : List AttemptOutcome,
    (stitchImagesGo l).2.pagesClosed = okCount (stitchImagesGo l).1
      ∧ (stitchImagesGo l).2.pagesClosed ≤ (stitchImagesGo l).2.pagesAcquired := by
  intro l
  induction l with
  | nil => simp [stitchImagesGo, okCount]
  | cons a rest ih =>
      cases a with
      | success b => simp [stitchImagesGo, okCount]
      | failAcquire m =>
          by_cases hm : isTransientMsg m
          · simpa [stitchImagesGo, hm] using ih
          · simp [stitchImagesGo, hm, okCount]
      | failAfterAcquire m =>
          by_cases hm : isTransientMsg m
          · obtain ⟨ih1, ih2⟩ := ih
            simp only [stitchImagesGo, hm, if_true]
            exact ⟨ih1, by omega⟩
          · simp [stitchImagesGo, hm, okCount]

/-- Claim C10: `generateHtmlForImages` produces exactly the fixed HTML skeleton
(flex-direction `row` for the `横向` token, `column` for every other
direction) followed by the concatenation, in list order, of `<img src="URL">`
tags with each URL embedded verbatim and unescaped; consequently a URL
containing a double quote and angle brackets alters the document structure —
the single crafted URL below yields the very same document as the two plain
URLs `z` and `w`. -/
theorem c10_generateHtml (urls : List String) :
    (generateHtmlForImages urls "横向" =
      "<html><head>\n      <style>\n        body \x7b\n          margin: 0;\n          display: flex;\n          flex-direction: row;\n        \x7d\n        img \x7b\n          display: block;\n        \x7d\n      </style>\n    </head><body>"
        ++ String.join (urls.map (fun url => "<img src=\"" ++ url ++ "\">"))
        ++ "</body></html>")
    ∧ (∀ d : String, d ≠ "横向" →
        generateHtmlForImages urls d =
          "<html><head>\n      <style>\n        body \x7b\n          margin: 0;\n          display: flex;\n          flex-direction: column;\n        \x7d\n        img \x7b\n          display: block;\n        \x7d\n      </style>\n    </head><body>"
            ++ String.join (urls.map (fun url => "<img src=\"" ++ url ++ "\">"))
            ++ "</body></html>")
    ∧ generateHtmlForImages ["z\"><img src=\"w"] "纵向"
        = generateHtmlForImages ["z", "w"] "纵向" := by
  refine ⟨rfl, ?_, rfl⟩
  intro d hd
  unfold generateHtmlForImages styleFor
  rw [if_neg hd]
  rfl

/-- Witness for C10 at a concrete non-horizontal direction. -/
theorem c10_generateHtml_witness :
    generateHtmlForImages ["a"] "纵向" =
      "<html><head>\n      <style>\n        body \x7b\n          margin: 0;\n          display: flex;\n          flex-direction: column;\n        \x7d\n        img \x7b\n          display: block;\n        \x7d\n      </style>\n    </head><body>"
        ++ String.join (["a"].map (fun url => "<img src=\"" ++ url ++ "\">"))
        ++ "</body></html>" :=
  (c10_generateHtml ["a"]).2.1 "纵向" (by decide)

/-- Claim C4: the render loop makes at most 3 total attempts; when all three
engine outcomes are connection-closed failures the terminal max-retries error
is raised after three fixed backoffs; the first non-transient failure is
raised immediately (aborting remaining attempts, one backoff per preceding
transient failure); a success after `k` transient failures returns the
screenshot having performed exactly `k` backoffs, each retry on a fresh page. -/
theorem c4_retryPolicy (engine : Nat → AttemptOutcome) (urls : List String)
    (dir : String) :
    (stitchImages engine urls dir).2.attempts ≤ maxRetries
    ∧ ((∀ k, k < maxRetries → isTransientOutcome (engine k) = true) →
        (stitchImages engine urls dir).1 = RenderResult.error maxRetriesErrMsg
          ∧ (stitchImages engine urls dir).2.sleeps = maxRetries)
    ∧ (∀ k, k < maxRetries → (∀ j, j < k → isTransientOutcome (engine j) = true) →
        isFatalOutcome (engine k) = true →
        (stitchImages engine urls dir).1 = RenderResult.error (outcomeMsg (engine k))
          ∧ (stitchImages engine urls dir).2.attempts = k + 1
          ∧ (stitchImages engine urls dir).2.sleeps = k)
    ∧ (∀ k b, k < maxRetries → (∀ j, j < k → isTransientOutcome (engine j) = true) →
        engine k = AttemptOutcome.success b →
        (stitchImages engine urls dir).1 = RenderResult.ok b
          ∧ (stitchImages engine urls dir).2.attempts = k + 1
          ∧ (stitchImages engine urls dir).2.sleeps = k) := by
  have hE : stitchImages engine urls dir
      = stitchImagesGo [engine 0, engine 1, engine 2] := rfl
  refine ⟨?_, ?_, ?_, ?_⟩
  · rw [hE]
    simpa [maxRetries] using stitchGo_attempts_le [engine 0, engine 1, engine 2]
  · intro h
    have hall : ∀ x ∈ [engine 0, engine 1, engine 2], isTransientOutcome x = true := by
      intro x hx
      simp only [List.mem_cons, List.not_mem_nil, or_false] at hx
      rcases hx with rfl | rfl | rfl
      · exact h 0 (by simp [maxRetries])
      · exact h 1 (by simp [maxRetries])
      · exact h 2 (by simp [maxRetries])
    obtain ⟨h1, h2, _⟩ := stitchGo_all_transient [engine 0, engine 1, engine 2] hall
    rw [hE]
    exact ⟨h1, by simpa [maxRetries] using h2⟩
  · intro k hk hall hfatal
    rw [hE]
    simp only [maxRetries] at hk
    interval_cases k
    · simpa using stitchGo_fatal_at [] (engine 0) [engine 1, engine 2] (by simp) hfatal
    · have hpre : ∀ y ∈ [engine 0], isTransientOutcome y = true := by
        intro y hy
        simp only [List.mem_cons, List.not_mem_nil, or_false] at hy
        subst hy
        exact hall 0 (by omega)
      simpa using stitchGo_fatal_at [engine 0] (engine 1) [engine 2] hpre hfatal
    · have hpre : ∀ y ∈ [engine 0, engine 1], isTransientOutcome y = true := by
        intro y hy
        simp only [List.mem_cons, List.not_mem_nil, or_false] at hy
        rcases hy with rfl | rfl
        · exact hall 0 (by omega)
        · exact hall 1 (by omega)
      simpa using stitchGo_fatal_at [engine 0, engine 1] (engine 2) [] hpre hfatal
  · intro k b hk hall hsucc
    rw [hE]
    simp only [maxRetries] at hk
    interval_cases k
    · rw [show [engine 0, engine 1, engine 2]
          = [] ++ engine 0 :: [engine 1, engine 2] from rfl, hsucc]
      simpa using stitchGo_success_at [] b [engine 1, engine 2] (by simp)
    · have hpre : ∀ y ∈ [engine 0], isTransientOutcome y = true := by
        intro y hy
        simp only [List.mem_cons, List.not_mem_nil, or_false] at hy
        subst hy
        exact hall 0 (by omega)
      rw [show [engine 0, engine 1, engine 2]
          = [engine 0] ++ engine 1 :: [engine 2] from rfl, hsucc]
      simpa using stitchGo_success_at [engine 0] b [engine 2] hpre
    · have hpre : ∀ y ∈ [engine 0, engine 1], isTransientOutcome y = true := by
        intro y hy
        simp only [List.mem_cons, List.not_mem_nil, or_false] at hy
        rcases hy with rfl | rfl
        · exact hall 0 (by omega)
        · exact hall 1 (by omega)
      rw [show [engine 0, engine 1, engine 2]
          = [engine 0, engine 1] ++ engine 2 :: [] from rfl, hsucc]
      simpa using stitchGo_success_at [engine 0, engine 1] b [] hpre

/-- Witness for C4 at a concrete engine: three connection-closed failures
produce the terminal max-retries error after three fixed backoffs. -/
theorem c4_retryPolicy_witness :
    (stitchImages (fun _ => AttemptOutcome.failAfterAcquire "Connection closed")
        ["a", "b"] "纵向").1 = RenderResult.error maxRetriesErrMsg
      ∧ (stitchImages (fun _ => AttemptOutcome.failAfterAcquire "Connection closed")
        ["a", "b"] "纵向").2.sleeps = maxRetries :=
  (c4_retryPolicy (fun _ => AttemptOutcome.failAfterAcquire "Connection closed")
    ["a", "b"] "纵向").2.1 (by decide)

/-- Claim C5 (amended): only a successful attempt releases its page — the run
closes exactly one page when it returns a screenshot and none otherwise, so an
attempt that acquires a page and then fails leaves that page unreleased. -/
theorem c5_pageRelease (engine : Nat → AttemptOutcome) (urls : List String)
    (dir : String) :
    (stitchImages engine urls dir).2.pagesClosed
        = okCount (stitchImages engine urls dir).1
      ∧ (stitchImages engine urls dir).2.pagesClosed
        ≤ (stitchImages engine urls dir).2.pagesAcquired :=
  stitchGo_closed ((List.range maxRetries).map engine)

/-- Claim C5 counterexample: a first attempt that acquires a page and then
fails with a non-transient error returns control with one page acquired and
none released — the attempt's rendering session is not released on failure. -/
theorem c5_pageRelease_cex :
    (stitchImages (fun _ => AttemptOutcome.failAfterAcquire "boom")
        ["a", "b"] "纵向").2.pagesAcquired = 1
      ∧ (stitchImages (fun _ => AttemptOutcome.failAfterAcquire "boom")
        ["a", "b"] "纵向").2.pagesClosed = 0
      ∧ (stitchImages (fun _ => AttemptOutcome.failAfterAcquire "boom")
        ["a", "b"] "纵向").2.pagesClosed
        ≠ (stitchImages (fun _ => AttemptOutcome.failAfterAcquire "boom")
        ["a", "b"] "纵向").2.pagesAcquired := by
  refine ⟨rfl, rfl, by decide⟩

/-- Claim C1 (amended): for a session holding at least two images, finalize
immediately followed by a second finalize performs exactly one render in
total; a second call overlapping an in-flight finalize (stored `processing`
flag already true) is a silent no-op, as is any call once the session is gone.
Sessions with fewer than two images render zero times, not one — see the
counterexample. -/
theorem c1_doubleFinalize (e1 e2 : Nat → AttemptOutcome) (uid : String)
    (s : SysState) (sess : Session)
    (hget : alGet s.userImages uid = some sess)
    (hp : sess.processing = false)
    (hlen : 2 ≤ sess.images.length) :
    finalizeTwice e1 e2 uid s = 1
    ∧ stitchAndSendImages e2 uid
        { s with userImages := alSet s.userImages uid { sess with processing := true } }
      = ⟨{ s with userImages := alSet s.userImages uid { sess with processing := true } },
          [], []⟩
    ∧ (∀ s' : SysState, alGet s'.userImages uid = none →
        stitchAndSendImages e2 uid s' = ⟨s', [], []⟩) := by
  have hr := finalize_render e1 uid s sess hget hp hlen
  refine ⟨?_, ?_, fun s' h' => finalize_none e2 uid s' h'⟩
  · have hnone : alGet (stitchAndSendImages e1 uid s).state.userImages uid = none := by
      rw [hr]
      exact alGet_alErase_self s.userImages uid
    have h2 := finalize_none e2 uid _ hnone
    unfold finalizeTwice
    rw [h2, hr]
    rfl
  · exact finalize_busy e2 uid _ { sess with processing := true }
      (alGet_alSet_self s.userImages uid _) rfl

/-- Witness for C1 at a two-image session. -/
theorem c1_doubleFinalize_witness :
    finalizeTwice okEngine okEngine "u" sampleState2 = 1 :=
  (c1_doubleFinalize okEngine okEngine "u" sampleState2 ⟨"纵向", ["a", "b"], false⟩
    (by decide) rfl (by decide)).1

/-- Claim C1 counterexample: for a session holding a single image, invoking
finalize twice in sequence performs zero renders, not exactly one — both calls
take the too-few-images path. -/
theorem c1_doubleFinalize_cex :
    finalizeTwice okEngine okEngine "u" sampleState1 ≠ 1
      ∧ finalizeTwice okEngine okEngine "u" sampleState1 = 0 := by
  decide

/-- Claim C2: with fewer than two images at finalize time, finalize emits the
"need at least two images" text, performs no render, clears `processing`,
keeps the session (and the timer table untouched), and a subsequent
image-bearing message from the same user appends to the same image list. -/
theorem c2_tooFewImages (e1 e2 : Nat → AttemptOutcome) (uid : String)
    (s : SysState) (sess : Session) (imgs : List String)
    (hget : alGet s.userImages uid = some sess)
    (hp : sess.processing = false)
    (hfew : sess.images.length < 2) :
    (stitchAndSendImages e1 uid s).sent = [OutMsg.text needTwoMsg]
    ∧ (stitchAndSendImages e1 uid s).rendered = []
    ∧ alGet (stitchAndSendImages e1 uid s).state.userImages uid
        = some { sess with processing := false }
    ∧ (stitchAndSendImages e1 uid s).state.timeoutTable = s.timeoutTable
    ∧ alGet ((onMessage e2 uid imgs false
          (stitchAndSendImages e1 uid s).state).state).userImages uid
        = some { sess with images := sess.images ++ imgs, processing := false } := by
  have hr := finalize_few e1 uid s sess hget hp hfew
  have h2 := onMessage_append e2 uid imgs
    { s with userImages := alSet s.userImages uid { sess with processing := false } }
    { sess with processing := false }
    (alGet_alSet_self s.userImages uid { sess with processing := false })
  refine ⟨?_, ?_, ?_, ?_, ?_⟩
  · rw [hr]
  · rw [hr]
  · rw [hr]
    exact alGet_alSet_self ..
  · rw [hr]
  · rw [hr]
    exact h2

/-- Witness for C2 at a one-image session. -/
theorem c2_tooFewImages_witness :
    (stitchAndSendImages okEngine "u" sampleState1).sent = [OutMsg.text needTwoMsg] :=
  (c2_tooFewImages okEngine okEngine "u" sampleState1 ⟨"纵向", ["a"], false⟩ ["b"]
    (by decide) rfl (by decide)).1

/-- Claim C3: a finalize that proceeds to render deletes the session and its
timer-table entry afterwards regardless of whether the render succeeded or
failed; on failure the generic failure text is sent outward instead of the
image. -/
theorem c3_renderCleanup (engine : Nat → AttemptOutcome) (uid : String)
    (s : SysState) (sess : Session)
    (hget : alGet s.userImages uid = some sess)
    (hp : sess.processing = false)
    (hlen : 2 ≤ sess.images.length) :
    alGet (stitchAndSendImages engine uid s).state.userImages uid = none
    ∧ alGet (stitchAndSendImages engine uid s).state.timeoutTable uid = none
    ∧ (stitchAndSendImages engine uid s).rendered = [sess.images]
    ∧ (∀ msg, (stitchImages engine sess.images sess.direction).1
          = RenderResult.error msg →
        (stitchAndSendImages engine uid s).sent = [OutMsg.text renderFailMsg])
    ∧ (∀ b, (stitchImages engine sess.images sess.direction).1 = RenderResult.ok b →
        (stitchAndSendImages engine uid s).sent = [OutMsg.image b]) := by
  have hr := finalize_render engine uid s sess hget hp hlen
  refine ⟨?_, ?_, ?_, ?_, ?_⟩
  · rw [hr]
    exact alGet_alErase_self ..
  · rw [hr]
    exact alGet_alErase_self ..
  · rw [hr]
  · intro msg hmsg
    rw [hr, hmsg]
    rfl
  · intro b hb
    rw [hr, hb]
    rfl

/-- Witness for C3 at a two-image session and a succeeding engine. -/
theorem c3_renderCleanup_witness :
    alGet (stitchAndSendImages okEngine "u" sampleState2).state.userImages "u" = none :=
  (c3_renderCleanup okEngine "u" sampleState2 ⟨"纵向", ["a", "b"], false⟩
    (by decide) rfl (by decide)).1

/-- Claim C6 (amended): a valid direction token replaces any existing session
for the user with a fresh session (chosen direction, empty image list) and
returns the confirmation message, but the prior session's pending debounce
timer is not cancelled: the timer table and the scheduled callbacks are left
untouched, so an earlier-scheduled expiry later runs finalize against the
replacement session — see the counterexample. -/
theorem c6_startSession (uid d : String) (s : SysState)
    (hd : d = "横向" ∨ d = "纵向") :
    alGet (startSession uid d s).1.userImages uid = some ⟨d, [], false⟩
    ∧ (startSession uid d s).2 = startConfirmMsg
    ∧ (startSession uid d s).1.timeoutTable = s.timeoutTable
    ∧ (startSession uid d s).1.pending = s.pending := by
  have hcond : ¬ (¬ (d = "横向") ∧ ¬ (d = "纵向")) := by tauto
  unfold startSession
  rw [if_neg hcond]
  exact ⟨alGet_alSet_self .., rfl, rfl, rfl⟩

/-- Witness for C6 with the horizontal token over an existing session. -/
theorem c6_startSession_witness :
    alGet (startSession "u" "横向" sampleState2).1.userImages "u"
      = some ⟨"横向", [], false⟩ :=
  (c6_startSession "u" "横向" sampleState2 (Or.inl rfl)).1

/-- Claim C6 counterexample: after `startSession` replaces user `u`'s session
(which held two images and a debounce timer scheduled under handle 0), the old
pending timer has not been abandoned — on expiry it fires against the fresh
empty session and sends the "need at least two images" text outward. -/
theorem c6_startSession_cex :
    (fireTimer okEngine 0 "u" (startSession "u" "纵向" sampleState2).1).sent
        = [OutMsg.text needTwoMsg]
      ∧ (fireTimer okEngine 0 "u" (startSession "u" "纵向" sampleState2).1).sent ≠ [] := by
  refine ⟨by decide, by decide⟩

/-- Claim C7: feeding any sequence of non-completion messages through the
middleware appends their extracted image batches in arrival order, so the
image list passed to the render equals the session's initial list followed by
the concatenation of the batches; splitting a batch across two messages yields
the same final list as sending it in one message. -/
theorem c7_concatOrder (engine : Nat → AttemptOutcome) (uid : String) (s : SysState)
    (sess : Session) (batches : List (List String))
    (hget : alGet s.userImages uid = some sess) :
    (alGet (feedImages engine uid s batches).userImages uid
        = some { sess with images := sess.images ++ batches.flatten })
    ∧ (sess.processing = false → 2 ≤ (sess.images ++ batches.flatten).length →
        (stitchAndSendImages engine uid (feedImages engine uid s batches)).rendered
          = [sess.images ++ batches.flatten])
    ∧ (∀ b1 b2 rest, batches = b1 :: b2 :: rest →
        alGet (feedImages engine uid s batches).userImages uid
          = alGet (feedImages engine uid s ((b1 ++ b2) :: rest)).userImages uid) := by
  have h1 := feedImages_get engine uid batches s sess hget
  refine ⟨h1, ?_, ?_⟩
  · intro hp hlen
    have hr := finalize_render engine uid _ _ h1 hp hlen
    rw [hr]
  · intro b1 b2 rest hb
    subst hb
    rw [h1, feedImages_get engine uid ((b1 ++ b2) :: rest) s sess hget]
    simp [List.append_assoc]

/-- Witness for C7: two image batches appended in order to a two-image session. -/
theorem c7_concatOrder_witness :
    alGet (feedImages okEngine "u" sampleState2 [["c"], ["d", "e"]]).userImages "u"
      = some ⟨"纵向", ["a", "b", "c", "d", "e"], false⟩ :=
  (c7_concatOrder okEngine "u" sampleState2 ⟨"纵向", ["a", "b"], false⟩
    [["c"], ["d", "e"]] (by decide)).1

/-- Claim C8: a finalize that starts from a quiescent state for the user (any
stored session has `processing = false`, i.e. no finalize is in flight) never
completes leaving a stored session with `processing = true`: the too-few path
clears the flag and the render paths delete the session. -/
theorem c8_noStuckProcessing (engine : Nat → AttemptOutcome) (uid : String)
    (s : SysState)
    (hq : ∀ sess, alGet s.userImages uid = some sess → sess.processing = false) :
    ∀ sess', alGet (stitchAndSendImages engine uid s).state.userImages uid = some sess' →
      sess'.processing = false := by
  intro sess' h'
  cases hget : alGet s.userImages uid with
  | none =>
      rw [finalize_none engine uid s hget] at h'
      simp [hget] at h'
  | some sess =>
      have hp := hq sess hget
      by_cases hfew : sess.images.length < 2
      · rw [finalize_few engine uid s sess hget hp hfew] at h'
        simp [alGet_alSet_self] at h'
        subst h'
        rfl
      · have hlen : 2 ≤ sess.images.length := Nat.not_lt.mp hfew
        rw [finalize_render engine uid s sess hget hp hlen] at h'
        simp [alGet_alErase_self] at h'

/-- Witness for C8 at a one-image session: the kept session has a cleared
`processing` flag. -/
theorem c8_noStuckProcessing_witness :
    Session.processing ⟨"纵向", ["a"], false⟩ = false :=
  c8_noStuckProcessing okEngine "u" sampleState1 (by decide)
    ⟨"纵向", ["a"], false⟩ (by decide)

/-- Claim C9: a committed finalize deletes the session and the timer-table
entry but does not clear the earlier-scheduled debounce callback, which stays
pending; when that callback later fires, the missing-session guard makes it a
complete no-op — no message, no render, and no change to the session map or
the timer table (the runtime merely dequeues the fired callback). -/
theorem c9_staleTimerNoop (e1 e2 : Nat → AttemptOutcome) (uid : String)
    (s : SysState) (sess : Session) (tid : Nat)
    (hget : alGet s.userImages uid = some sess)
    (hp : sess.processing = false)
    (hlen : 2 ≤ sess.images.length)
    (hpend : (tid, uid) ∈ s.pending) :
    ((tid, uid) ∈ (stitchAndSendImages e1 uid s).state.pending)
    ∧ alGet (stitchAndSendImages e1 uid s).state.timeoutTable uid = none
    ∧ (fireTimer e2 tid uid (stitchAndSendImages e1 uid s).state).sent = []
    ∧ (fireTimer e2 tid uid (stitchAndSendImages e1 uid s).state).rendered = []
    ∧ (fireTimer e2 tid uid (stitchAndSendImages e1 uid s).state).state.userImages
        = (stitchAndSendImages e1 uid s).state.userImages
    ∧ (fireTimer e2 tid uid (stitchAndSendImages e1 uid s).state).state.timeoutTable
        = (stitchAndSendImages e1 uid s).state.timeoutTable
    ∧ (fireTimer e2 tid uid (stitchAndSendImages e1 uid s).state).state.pending
        = (stitchAndSendImages e1 uid s).state.pending.filter
            (fun p => decide (p ≠ (tid, uid))) := by
  have hr := finalize_render e1 uid s sess hget hp hlen
  have hnone : alGet (alErase s.userImages uid) uid = none :=
    alGet_alErase_self s.userImages uid
  have hf : fireTimer e2 tid uid (stitchAndSendImages e1 uid s).state
      = ⟨{ s with userImages := alErase s.userImages uid,
                  timeoutTable := alErase s.timeoutTable uid,
                  pending := s.pending.filter (fun p => decide (p ≠ (tid, uid))) },
          [], []⟩ := by
    rw [hr]
    show fireTimer e2 tid uid
        { s with userImages := alErase s.userImages uid,
                 timeoutTable := alErase s.timeoutTable uid } = _
    unfold fireTimer
    rw [if_pos (show (tid, uid) ∈ _ from hpend)]
    exact finalize_none e2 uid _ hnone
  refine ⟨?_, ?_, ?_, ?_, ?_, ?_, ?_⟩
  · rw [hr]
    exact hpend
  · rw [hr]
    exact alGet_alErase_self ..
  · rw [hf]
  · rw [hf]
  · rw [hf, hr]
  · rw [hf, hr]
  · rw [hf, hr]

/-- Witness for C9 at a two-image session with a pending timer under handle 0. -/
theorem c9_staleTimerNoop_witness :
    (0, "u") ∈ (stitchAndSendImages okEngine "u" sampleState2).state.pending :=
  (c9_staleTimerNoop okEngine okEngine "u" sampleState2 ⟨"纵向", ["a", "b"], false⟩ 0
    (by decide) rfl (by decide) (by decide)).1

end PicSplice
